import Mathlib

/-!
Verification development for the Eucalang interpreter (src/interpreter.py).

The interpreter is shallowly embedded: Python strings are Lean `String`s
(whose data is a `List Char`), Python values flowing through the evaluator
are the tagged union `Value` (int / float / str), and every fallible
operation returns `Except Err _` or the state-carrying result type `Res`.
Python floats are idealized as exact fractions (`Frac`); no claim below
exercises float rounding, so only the structure of the float code paths
matters.  All recursion is structural (loops take an explicit fuel
parameter), so every function evaluates inside the kernel.
-/

/-! ## String helpers (Python `str` methods, over `List Char`) -/

/-- Prefix test on character lists (`listPre p s` is true when `p` is a
prefix of `s`). -/
def listPre : List Char → List Char → Bool
  | [], _ => true
  | _ :: _, [] => false
  | a :: as, b :: bs => a == b && listPre as bs

/-- Python `s.startswith(p)`. -/
def pyStarts (s p : String) : Bool := listPre p.data s.data

/-- Python `s.endswith(p)`. -/
def pyEnds (s p : String) : Bool := listPre p.data.reverse s.data.reverse

/-- Python `s.strip()`. -/
def pyStrip (s : String) : String :=
  String.mk (((s.data.dropWhile Char.isWhitespace).reverse.dropWhile Char.isWhitespace).reverse)

/-- Python `s[n:]`. -/
def pyDrop (s : String) (n : Nat) : String := String.mk (s.data.drop n)

/-- Python `s[:-n]` (composed after `pyDrop` this also gives `s[a:-n]`). -/
def pyDropEnd (s : String) (n : Nat) : String :=
  String.mk (s.data.take (s.data.length - n))

/-- Worker for `pySplit`; the fuel is one more than the length of the
string being split, which the scan (advancing at least one character per
step for a non-empty separator) can never exhaust. -/
def chSplitF : Nat → List Char → List Char → List Char → List (List Char)
  | 0, _, acc, _ => [acc.reverse]
  | _ + 1, _, acc, [] => [acc.reverse]
  | fuel + 1, sep, acc, c :: rest =>
    if listPre sep (c :: rest) then
      acc.reverse :: chSplitF fuel sep [] ((c :: rest).drop sep.length)
    else
      chSplitF fuel sep (c :: acc) rest

/-- Python `s.split(sep)` for a non-empty separator. -/
def pySplit (s sep : String) : List String :=
  (chSplitF (s.data.length + 1) sep.data [] s.data).map String.mk

/-- Python `sep.join(parts)`. -/
def pyJoin (sep : String) : List String → String
  | [] => ""
  | [x] => x
  | x :: xs => x ++ sep ++ pyJoin sep xs

/-- Python substring containment `sub in s` (non-empty `sub`), expressed
through the same splitting primitive the interpreter uses. -/
def pyIn (sub s : String) : Bool := decide (2 ≤ (pySplit s sub).length)

/-- Python `s.split(op, 1)`: the text before the first occurrence of `op`
and the remainder after it.  Callers only use it when `op` occurs in `s`. -/
def pySplit1 (s op : String) : String × String :=
  match pySplit s op with
  | [] => (s, "")
  | [a] => (a, "")
  | a :: rest => (a, pyJoin op rest)

/-- Worker for `pyReplace`; fuel as in `chSplitF`. -/
def chReplaceF : Nat → List Char → List Char → List Char → List Char
  | 0, _, _, s => s
  | _ + 1, _, _, [] => []
  | fuel + 1, old, new, c :: rest =>
    if listPre old (c :: rest) then
      new ++ chReplaceF fuel old new ((c :: rest).drop old.length)
    else
      c :: chReplaceF fuel old new rest

/-- Python `s.replace(old, new)` for a non-empty `old`. -/
def pyReplace (s old new : String) : String :=
  String.mk (chReplaceF (s.data.length + 1) old.data new.data s.data)

/-- Worker for `pySplitWs`. -/
def wsSplitGo : List Char → List Char → List String
  | acc, [] => if acc.isEmpty then [] else [String.mk acc.reverse]
  | acc, c :: cs =>
    if c.isWhitespace then
      if acc.isEmpty then wsSplitGo [] cs
      else String.mk acc.reverse :: wsSplitGo [] cs
    else wsSplitGo (c :: acc) cs

/-- Python `s.split()` with no argument: split on whitespace runs,
discarding empty pieces. -/
def pySplitWs (s : String) : List String := wsSplitGo [] s.data

/-- Python `s.isdigit()` (ASCII digits). -/
def isDigitStr (s : String) : Bool := !s.data.isEmpty && s.data.all Char.isDigit

/-- Decimal digits to a natural number. -/
def digitsToNat : List Char → Nat → Nat
  | [], acc => acc
  | c :: cs, acc => digitsToNat cs (acc * 10 + (c.toNat - 48))

/-- Numeric value of an all-digit string. -/
def strToNat (s : String) : Nat := digitsToNat s.data 0

/-- Python `s.replace('.', '', 1)`: remove the first dot. -/
def removeFirstDot (s : String) : String :=
  match pySplit s "." with
  | [] => s
  | [_] => s
  | p :: rest => p ++ pyJoin "." rest

/-- Lexicographic comparison of character lists (Python string `<`). -/
def chLt : List Char → List Char → Bool
  | [], [] => false
  | [], _ :: _ => true
  | _ :: _, [] => false
  | a :: as, b :: bs => if a < b then true else if b < a then false else chLt as bs

/-! ## Values and errors -/

/-- Idealized exact-rational model of a Python float: an unnormalized
fraction with positive denominator.  Claims below never depend on float
rounding, only on which code path produces a float. -/
structure Frac where
  num : Int
  den : Int
deriving DecidableEq, Repr

/-- Embed an integer. -/
def fOfInt (n : Int) : Frac := ⟨n, 1⟩

/-- Restore the positive-denominator convention. -/
def fNorm (f : Frac) : Frac := if f.den < 0 then ⟨-f.num, -f.den⟩ else f

def fAdd (a b : Frac) : Frac := ⟨a.num * b.den + b.num * a.den, a.den * b.den⟩
def fSub (a b : Frac) : Frac := ⟨a.num * b.den - b.num * a.den, a.den * b.den⟩
def fMul (a b : Frac) : Frac := ⟨a.num * b.num, a.den * b.den⟩
def fDiv (a b : Frac) : Frac := fNorm ⟨a.num * b.den, a.den * b.num⟩
def fEq (a b : Frac) : Bool := a.num * b.den == b.num * a.den
def fLt (a b : Frac) : Bool := decide (a.num * b.den < b.num * a.den)

/-- Structural integer power (kernel-computable). -/
def intPow (a : Int) : Nat → Int
  | 0 => 1
  | n + 1 => a * intPow a n

/-- `a ^ e` for an integer exponent; callers rule out `0 ^ negative`. -/
def fPowInt (a : Frac) (e : Int) : Frac :=
  if 0 ≤ e then ⟨intPow a.num e.toNat, intPow a.den e.toNat⟩
  else fNorm ⟨intPow a.den (-e).toNat, intPow a.num (-e).toNat⟩

/-- Largest `r` with `r ^ k ≤ n` (slow linear scan; only used by the
idealized float power below, which no claim exercises). -/
def natRootL (k n : Nat) : Nat :=
  ((List.range (n + 2)).filter (fun r => intPow (Int.ofNat r) k ≤ Int.ofNat n)).getLast?.getD 0

/-- Idealized square root of a nonnegative fraction (models `math.sqrt`). -/
def fSqrt (f : Frac) : Frac :=
  ⟨Int.ofNat (natRootL 2 f.num.toNat), Int.ofNat (natRootL 2 f.den.toNat)⟩

/-- Idealized `a ** e` for a non-integer rational exponent.  Python would
produce a float (or a complex number for a negative base, idealized here
as 0); no claim exercises this path. -/
def fRootPow (a e : Frac) : Frac :=
  if a.num < 0 then ⟨0, 1⟩
  else fPowInt ⟨Int.ofNat (natRootL e.den.toNat a.num.toNat),
                Int.ofNat (natRootL e.den.toNat a.den.toNat)⟩ e.num

/-- Floor of a fraction (denominator positive). -/
def fFloor (f : Frac) : Int := Int.ediv f.num f.den

/-- Ceiling of a fraction (denominator positive). -/
def fCeil (f : Frac) : Int := -(Int.ediv (-f.num) f.den)

/-- Python `round`: round half to even. -/
def pyRoundF (f : Frac) : Int :=
  let fl := fFloor f
  let r2 := 2 * (f.num - fl * f.den)
  if r2 < f.den then fl
  else if f.den < r2 then fl + 1
  else if Int.emod fl 2 = 0 then fl else fl + 1

/-- The dynamic values the interpreter manipulates: Python int, float or
str (src/interpreter.py stores nothing else in its variable and list
stores). -/
inductive Value where
  | int (n : Int)
  | float (f : Frac)
  | str (s : String)
deriving DecidableEq, Repr

/-- Faults: `lang msg` is the single language error kind `LangError`
(src/interpreter.py lines 4-5); `py msg` is a native Python exception
(KeyError, ValueError, IndexError, AttributeError, TypeError,
ZeroDivisionError) escaping from library calls; `fuel` is the modelling
artifact for exhausted fuel. -/
inductive Err where
  | lang (msg : String)
  | py (msg : String)
  | fuel
deriving DecidableEq, Repr

/-- Whether a fault is the language error kind. -/
def Err.isLang : Err → Bool
  | .lang _ => true
  | _ => false

/-- Python `str(v)` (float formatting idealized over the fraction model;
no claim prints a float). -/
def pyStr : Value → String
  | .int n => toString n
  | .float f => toString f.num ++ "/" ++ toString f.den
  | .str s => s

/-- Python `==` between stored values. -/
def pyEq : Value → Value → Bool
  | .int a, .int b => a == b
  | .int a, .float f => fEq (fOfInt a) f
  | .float f, .int a => fEq f (fOfInt a)
  | .float a, .float b => fEq a b
  | .str a, .str b => a == b
  | _, _ => false

/-- Python `<` between stored values (TypeError on a number/string mix). -/
def pyLtB : Value → Value → Except Err Bool
  | .int a, .int b => .ok (decide (a < b))
  | .int a, .float f => .ok (fLt (fOfInt a) f)
  | .float f, .int a => .ok (fLt f (fOfInt a))
  | .float a, .float b => .ok (fLt a b)
  | .str a, .str b => .ok (chLt a.data b.data)
  | _, _ => .error (.py "TypeError")

/-- Python truthiness. -/
def pyBool : Value → Bool
  | .int n => n != 0
  | .float f => f.num != 0
  | .str s => s != ""

/-- Python `a - b`. -/
def pySub : Value → Value → Except Err Value
  | .int a, .int b => .ok (.int (a - b))
  | .int a, .float f => .ok (.float (fSub (fOfInt a) f))
  | .float f, .int a => .ok (.float (fSub f (fOfInt a)))
  | .float a, .float b => .ok (.float (fSub a b))
  | _, _ => .error (.py "TypeError")

/-- Python string repetition `s * n`. -/
def strRep (s : String) (n : Int) : String :=
  String.mk (List.flatten (List.replicate n.toNat s.data))

/-- Python `a * b`. -/
def pyMul : Value → Value → Except Err Value
  | .int a, .int b => .ok (.int (a * b))
  | .int a, .float f => .ok (.float (fMul (fOfInt a) f))
  | .float f, .int a => .ok (.float (fMul f (fOfInt a)))
  | .float a, .float b => .ok (.float (fMul a b))
  | .int a, .str s => .ok (.str (strRep s a))
  | .str s, .int a => .ok (.str (strRep s a))
  | _, _ => .error (.py "TypeError")

/-- Zero test used by division. -/
def isZeroV : Value → Bool
  | .int n => n == 0
  | .float f => f.num == 0
  | .str _ => false

/-- Fraction view of a numeric value. -/
def toFrac : Value → Frac
  | .int n => fOfInt n
  | .float f => f
  | .str _ => ⟨0, 1⟩

/-- Python `a / b` (true division, always a float). -/
def pyDiv : Value → Value → Except Err Value
  | .str _, _ => .error (.py "TypeError")
  | _, .str _ => .error (.py "TypeError")
  | a, b =>
    if isZeroV b then .error (.py "ZeroDivisionError")
    else .ok (.float (fDiv (toFrac a) (toFrac b)))

/-- Python `a ** b` for a float on either side. -/
def powFF (a e : Frac) : Except Err Value :=
  if e.den = 1 then
    if a.num = 0 && decide (e.num < 0) then .error (.py "ZeroDivisionError")
    else .ok (.float (fPowInt a e.num))
  else
    if a.num = 0 && decide (e.num < 0) then .error (.py "ZeroDivisionError")
    else .ok (.float (fRootPow a e))

/-- Python `a ** b`. -/
def pyPow : Value → Value → Except Err Value
  | .int a, .int b =>
    if 0 ≤ b then .ok (.int (intPow a b.toNat))
    else if a = 0 then .error (.py "ZeroDivisionError")
    else .ok (.float (fPowInt (fOfInt a) b))
  | .float f, .int b =>
    if f.num = 0 && decide (b < 0) then .error (.py "ZeroDivisionError")
    else .ok (.float (fPowInt f b))
  | .int a, .float e => powFF (fOfInt a) e
  | .float a, .float e => powFF a e
  | _, _ => .error (.py "TypeError")

/-- The operator dictionary of `eval_expr` (src/interpreter.py lines
163-169): a Python dict literal evaluates every entry, in source order
`-`, `*`, `/`, `**`, before the lookup, so every entry can raise even
when another operator was selected. -/
def arithDict (op : String) (a b : Value) : Except Err Value :=
  match pySub a b with
  | .error e => .error e
  | .ok d =>
    match pyMul a b with
    | .error e => .error e
    | .ok m =>
      match pyDiv a b with
      | .error e => .error e
      | .ok q =>
        match pyPow a b with
        | .error e => .error e
        | .ok p =>
          .ok (if op = "-" then d else if op = "*" then m
               else if op = "/" then q else p)

/-- The comparator dictionary of `eval_cond` (src/interpreter.py lines
180-187): all six entries are evaluated, in source order `==`, `!=`, `>`,
`<`, `>=`, `<=`, before the lookup; the ordered comparisons are the
fallible ones. -/
def cmpDict (op : String) (a b : Value) : Except Err Bool :=
  let eq := pyEq a b
  match pyLtB b a with
  | .error e => .error e
  | .ok gt =>
    match pyLtB a b with
    | .error e => .error e
    | .ok lt =>
      .ok (if op = "==" then eq else if op = "!=" then !eq
           else if op = ">" then gt else if op = "<" then lt
           else if op = ">=" then !lt else !gt)

/-! ## Expression and condition evaluation -/

/-- Association-list lookup (Python dict read). -/
def dictLookup {α : Type} : List (String × α) → String → Option α
  | [], _ => none
  | (k, v) :: rest, key => if k = key then some v else dictLookup rest key

/-- Association-list write (Python dict assignment). -/
def dictSet {α : Type} : List (String × α) → String → α → List (String × α)
  | [], key, v => [(key, v)]
  | (k, w) :: rest, key, v =>
    if k = key then (key, v) :: rest else (k, w) :: dictSet rest key v

/-- Set insertion (Python `set.add`). -/
def setAdd (s : List String) (x : String) : List String :=
  if x ∈ s then s else s ++ [x]

/-- Value of a decimal literal with one dot (guarded by the caller). -/
def parseFloatLit (s : String) : Frac :=
  match pySplit s "." with
  | [a, b] =>
    ⟨Int.ofNat (strToNat a * 10 ^ b.length + strToNat b), Int.ofNat (10 ^ b.length)⟩
  | _ => ⟨0, 1⟩

/-- `Interpreter.eval_expr` (src/interpreter.py lines 137-170).  The rule
order is exactly the source order: `+`-concatenation first, then integer
literal, decimal literal, variable, quoted literal, the five prefix math
functions, and finally the binary operators probed in the fixed order
`**`, `*`, `/`, `-`, each splitting at its first occurrence. -/
def evalExpr (fuel : Nat) (vars : List (String × Value)) (expr0 : String) :
    Except Err Value :=
  match fuel with
  | 0 => .error .fuel
  | fuel + 1 =>
    let expr := pyStrip expr0
    if pyIn "+" expr then
      match (pySplit expr "+").mapM (fun p => evalExpr fuel vars (pyStrip p)) with
      | .error e => .error e
      | .ok vs => .ok (.str (String.join (vs.map pyStr)))
    else if isDigitStr expr then .ok (.int (Int.ofNat (strToNat expr)))
    else if isDigitStr (removeFirstDot expr) then .ok (.float (parseFloatLit expr))
    else
      match dictLookup vars expr with
      | some v => .ok v
      | none =>
        if pyStarts expr "\"" && pyEnds expr "\"" then
          .ok (.str (pyDropEnd (pyDrop expr 1) 1))
        else if pyStarts expr "sqrt(" then
          match evalExpr fuel vars (pyDropEnd (pyDrop expr 5) 1) with
          | .error e => .error e
          | .ok (.str _) => .error (.py "TypeError")
          | .ok v =>
            if decide ((toFrac v).num < 0) then .error (.py "ValueError")
            else .ok (.float (fSqrt (toFrac v)))
        else if pyStarts expr "cbrt(" then
          match evalExpr fuel vars (pyDropEnd (pyDrop expr 5) 1) with
          | .error e => .error e
          | .ok v => pyPow v (.float ⟨1, 3⟩)
        else if pyStarts expr "round(" then
          match evalExpr fuel vars (pyDropEnd (pyDrop expr 6) 1) with
          | .error e => .error e
          | .ok (.int n) => .ok (.int n)
          | .ok (.float f) => .ok (.int (pyRoundF f))
          | .ok (.str _) => .error (.py "TypeError")
        else if pyStarts expr "floor(" then
          match evalExpr fuel vars (pyDropEnd (pyDrop expr 6) 1) with
          | .error e => .error e
          | .ok (.int n) => .ok (.int n)
          | .ok (.float f) => .ok (.int (fFloor f))
          | .ok (.str _) => .error (.py "TypeError")
        else if pyStarts expr "ceiling(" then
          match evalExpr fuel vars (pyDropEnd (pyDrop expr 8) 1) with
          | .error e => .error e
          | .ok (.int n) => .ok (.int n)
          | .ok (.float f) => .ok (.int (fCeil f))
          | .ok (.str _) => .error (.py "TypeError")
        else if pyIn "**" expr then
          match evalExpr fuel vars (pyStrip (pySplit1 expr "**").1) with
          | .error e => .error e
          | .ok a =>
            match evalExpr fuel vars (pyStrip (pySplit1 expr "**").2) with
            | .error e => .error e
            | .ok b => arithDict "**" a b
        else if pyIn "*" expr then
          match evalExpr fuel vars (pyStrip (pySplit1 expr "*").1) with
          | .error e => .error e
          | .ok a =>
            match evalExpr fuel vars (pyStrip (pySplit1 expr "*").2) with
            | .error e => .error e
            | .ok b => arithDict "*" a b
        else if pyIn "/" expr then
          match evalExpr fuel vars (pyStrip (pySplit1 expr "/").1) with
          | .error e => .error e
          | .ok a =>
            match evalExpr fuel vars (pyStrip (pySplit1 expr "/").2) with
            | .error e => .error e
            | .ok b => arithDict "/" a b
        else if pyIn "-" expr then
          match evalExpr fuel vars (pyStrip (pySplit1 expr "-").1) with
          | .error e => .error e
          | .ok a =>
            match evalExpr fuel vars (pyStrip (pySplit1 expr "-").2) with
            | .error e => .error e
            | .ok b => arithDict "-" a b
        else .error (.lang ("Invalid expression: " ++ expr))

/-- One comparison-operator attempt of `eval_cond`: `none` when the
operator does not occur; otherwise the result of splitting on every
occurrence, unpacking into exactly two sides (a native ValueError when
there are more), evaluating both and applying the comparator dictionary. -/
def condOp (fuel : Nat) (vars : List (String × Value)) (cond op : String) :
    Option (Except Err Bool) :=
  let parts := pySplit cond op
  if 2 ≤ parts.length then
    some
      (if parts.length = 2 then
        match evalExpr fuel vars (pyStrip (parts.headD "")) with
        | .error e => .error e
        | .ok a =>
          match evalExpr fuel vars (pyStrip (parts.getD 1 "")) with
          | .error e => .error e
          | .ok b => cmpDict op a b
      else .error (.py "ValueError"))
  else none

/-- `Interpreter.eval_cond` (src/interpreter.py lines 173-190): replace
the `$$` placeholder by the current element if one is supplied, probe the
comparison operators in the fixed order `==`, `!=`, `>=`, `<=`, `>`, `<`,
then the `not ` prefix, and finally coerce a plain expression to a
boolean. -/
def evalCond (fuel : Nat) (vars : List (String × Value)) (cond0 : String)
    (elem : Option Value) : Except Err Bool :=
  match fuel with
  | 0 => .error .fuel
  | fuel + 1 =>
    let cond := match elem with
      | some e => pyReplace cond0 "$$" (pyStr e)
      | none => cond0
    match condOp fuel vars cond "==" with
    | some r => r
    | none =>
    match condOp fuel vars cond "!=" with
    | some r => r
    | none =>
    match condOp fuel vars cond ">=" with
    | some r => r
    | none =>
    match condOp fuel vars cond "<=" with
    | some r => r
    | none =>
    match condOp fuel vars cond ">" with
    | some r => r
    | none =>
    match condOp fuel vars cond "<" with
    | some r => r
    | none =>
      if pyStarts cond "not " then
        match evalCond fuel vars (pyDrop cond 4) elem with
        | .error e => .error e
        | .ok b => .ok (!b)
      else
        match evalExpr fuel vars cond with
        | .error e => .error e
        | .ok v => .ok (pyBool v)

/-- The list comprehension of `filter_list` (src/interpreter.py line 260):
keep, in order, the elements on which the condition (with the placeholder
bound) is true; a failing condition aborts the whole statement. -/
def filterEval (fuel : Nat) (vars : List (String × Value)) (cond : String) :
    List Value → Except Err (List Value)
  | [] => .ok []
  | x :: xs =>
    match evalCond fuel vars cond (some x) with
    | .error e => .error e
    | .ok b =>
      match filterEval fuel vars cond xs with
      | .error e => .error e
      | .ok rest => .ok (if b then x :: rest else rest)

/-! ## Interpreter state -/

/-- The mutable fields of the `Interpreter` object (src/interpreter.py
lines 8-23), plus the captured console output. -/
structure St where
  lines : List String
  vars : List (String × Value)
  consts : List String
  lists : List (String × List Value)
  procedures : List (String × List String)
  definingProc : Bool
  currentProc : Option String
  procBuffer : List String
  pc : Nat
  loopStack : List Nat
  inputs : List (String × String)
  output : List String
deriving DecidableEq, Repr

/-- Result of executing a statement: either the new state, or a fault
together with the state at the moment it was raised (console output
produced before the fault is preserved, as with a propagating Python
exception). -/
inductive Res where
  | ok (s : St)
  | err (e : Err) (s : St)
deriving DecidableEq, Repr

/-- The state carried by a result. -/
def Res.state : Res → St
  | .ok s => s
  | .err _ s => s

/-- Whether a result is a normal completion. -/
def Res.isOk : Res → Bool
  | .ok _ => true
  | .err _ _ => false

/-! ## Preprocessing -/

/-- `Interpreter._preprocess` (src/interpreter.py lines 26-42), with the
in-block-comment flag explicit: trim; drop blanks; a `//` line turns the
flag on, a `\\` line turns it off (both lines dropped); lines inside a
block comment and `#` lines are dropped; everything else is kept
trimmed, in order. -/
def preprocessAux : Bool → List String → List String
  | _, [] => []
  | inC, raw :: rest =>
    let line := pyStrip raw
    if line = "" then preprocessAux inC rest
    else if pyStarts line "//" then preprocessAux true rest
    else if pyStarts line "\\\\" then preprocessAux false rest
    else if inC || pyStarts line "#" then preprocessAux inC rest
    else line :: preprocessAux inC rest

/-- Preprocess a raw line sequence. -/
def preprocess (raw : List String) : List String := preprocessAux false raw

/-- Manual deletion of comment and blank regions, following the spec's
words for the round-trip property: blank lines, `#` lines, the lines of a
`//`...`\\` block and the close marker itself are deleted, and the
surviving lines are kept verbatim (untrimmed) in their original order. -/
def specManualDeleteAux : Bool → List String → List String
  | _, [] => []
  | inC, raw :: rest =>
    let line := pyStrip raw
    if line = "" then specManualDeleteAux inC rest
    else if pyStarts line "//" then specManualDeleteAux true rest
    else if pyStarts line "\\\\" then specManualDeleteAux false rest
    else if inC || pyStarts line "#" then specManualDeleteAux inC rest
    else raw :: specManualDeleteAux inC rest

/-- Manually delete the comment/blank regions of a program. -/
def specManualDelete (raw : List String) : List String := specManualDeleteAux false raw

/-! ## Statement helpers -/

/-- Word characters of the regex class `\w`. -/
def wordChar (c : Char) : Bool := c.isAlphanum || c == '_'

/-- Tail of the `def (var|const) (\w+) = (.+);` match after the keyword:
a non-empty word-character name, the literal ` = `, then a greedy `(.+)`
group ending at the last semicolon. -/
def defVarTail (kind rest : String) : Option (String × String × String) :=
  let name := String.mk (rest.data.takeWhile wordChar)
  if name = "" then none
  else
    let after := pyDrop rest name.length
    if pyStarts after " = " then
      let tail := pyDrop after 3
      let parts := pySplit tail ";"
      if 2 ≤ parts.length then
        let expr := pyJoin ";" parts.dropLast
        if expr = "" then none else some (kind, name, expr)
      else none
    else none

/-- `re.match(r"def (var|const) (\w+) = (.+);", line)` of `def_var`
(src/interpreter.py line 116). -/
def matchDefVar (line : String) : Option (String × String × String) :=
  if pyStarts line "def var " then defVarTail "var" (pyDrop line 8)
  else if pyStarts line "def const " then defVarTail "const" (pyDrop line 10)
  else none

/-- `re.match(r"input from \"(.*)\"", expr)` of `def_var`
(src/interpreter.py line 124): the prompt is the greedy group between the
first quote and the last quote. -/
def matchInput (expr : String) : Option String :=
  if pyStarts expr "input from \"" then
    let rem := pyDrop expr 12
    let parts := pySplit rem "\""
    if 2 ≤ parts.length then some (pyJoin "\"" parts.dropLast) else none
  else none

/-- Bind a variable and record constness (src/interpreter.py lines
132-134). -/
def bindVar (s : St) (kind name : String) (v : Value) : St :=
  { s with vars := dictSet s.vars name v,
           consts := if kind = "const" then setAdd s.consts name else s.consts }

/-- `Interpreter.def_var` (src/interpreter.py lines 115-134).  An `input
from "prompt"` expression reads the supplied inputs mapping, defaulting to
the empty string; anything else goes through the expression evaluator. -/
def defVarStmt (fuel : Nat) (s : St) (line : String) : Res :=
  match matchDefVar line with
  | none => .err (.lang "Invalid variable definition") s
  | some (kind, name, expr0) =>
    let expr := pyStrip expr0
    if pyStarts expr "input from" then
      match matchInput expr with
      | none => .err (.lang "Invalid input syntax") s
      | some prompt =>
        .ok (bindVar s kind name (.str ((dictLookup s.inputs prompt).getD "")))
    else
      match evalExpr fuel s.vars expr with
      | .error e => .err e s
      | .ok v => .ok (bindVar s kind name v)

/-- `re.match(r"console\.type\((.*)\);", line)` (src/interpreter.py line
234): the greedy group between `console.type(` and the last `);`. -/
def matchConsole (line : String) : Option String :=
  if pyStarts line "console.type(" then
    let rem := pyDrop line 13
    let parts := pySplit rem ");"
    if 2 ≤ parts.length then some (pyJoin ");" parts.dropLast) else none
  else none

/-- `Interpreter.console` (src/interpreter.py lines 233-237). -/
def consoleStmt (fuel : Nat) (s : St) (line : String) : Res :=
  match matchConsole line with
  | none => .err (.lang "Invalid console.type") s
  | some expr =>
    match evalExpr fuel s.vars expr with
    | .error e => .err e s
    | .ok v => .ok { s with output := s.output ++ [pyStr v] }

/-- `re.match(r"create list\(\"(.*)\"\);", line)` (src/interpreter.py
line 241); a failed match is a native AttributeError (`.group` on None). -/
def matchCreate (line : String) : Option String :=
  if pyStarts line "create list(\"" then
    let rem := pyDrop line 13
    let parts := pySplit rem "\");"
    if 2 ≤ parts.length then some (pyJoin "\");" parts.dropLast) else none
  else none

/-- `Interpreter.create_list` (src/interpreter.py lines 240-242). -/
def createStmt (s : St) (line : String) : Res :=
  match matchCreate line with
  | none => .err (.py "AttributeError") s
  | some name => .ok { s with lists := dictSet s.lists name [] }

/-- Greedy first group of the two-group patterns `(.*)", (.*)\);` used by
append/remove/filter: the last index where `", ` starts with a later `);`
present. -/
def matchTwoIdx (rem : String) : Option Nat :=
  ((List.range (rem.length + 1)).filter (fun i =>
      pyStarts (pyDrop rem i) "\", " &&
      decide (2 ≤ (pySplit (pyDrop rem (i + 3)) ");").length))).getLast?

/-- Both greedy groups of `(.*)", (.*)\);` against the text after the
opening `name("`. -/
def matchTwo (rem : String) : Option (String × String) :=
  match matchTwoIdx rem with
  | none => none
  | some i =>
    some (String.mk (rem.data.take i),
          pyJoin ");" ((pySplit (pyDrop rem (i + 3)) ");").dropLast))

/-- `Interpreter.append_list` (src/interpreter.py lines 244-246): the
list is read first, so an undefined list raises a native KeyError before
the value expression is evaluated. -/
def appendStmt (fuel : Nat) (s : St) (line : String) : Res :=
  if pyStarts line "append(\"" then
    match matchTwo (pyDrop line 8) with
    | none => .err (.py "AttributeError") s
    | some (name, vexpr) =>
      match dictLookup s.lists name with
      | none => .err (.py "KeyError") s
      | some l =>
        match evalExpr fuel s.vars vexpr with
        | .error e => .err e s
        | .ok v => .ok { s with lists := dictSet s.lists name (l ++ [v]) }
  else .err (.py "AttributeError") s

/-- Membership via Python `==` and removal of the first equal element
(Python `list.remove`). -/
def pyMem (v : Value) : List Value → Bool
  | [] => false
  | x :: xs => pyEq x v || pyMem v xs

/-- Remove the first element equal to `v`. -/
def removeFirstEq (v : Value) : List Value → List Value
  | [] => []
  | x :: xs => if pyEq x v then xs else x :: removeFirstEq v xs

/-- `Interpreter.remove_list` (src/interpreter.py lines 248-252): the
value is evaluated first, then the list is read (KeyError if undefined);
removal of an absent value is a no-op. -/
def removeStmt (fuel : Nat) (s : St) (line : String) : Res :=
  if pyStarts line "remove(\"" then
    match matchTwo (pyDrop line 8) with
    | none => .err (.py "AttributeError") s
    | some (name, vexpr) =>
      match evalExpr fuel s.vars vexpr with
      | .error e => .err e s
      | .ok v =>
        match dictLookup s.lists name with
        | none => .err (.py "KeyError") s
        | some l =>
          .ok { s with lists :=
                  if pyMem v l then dictSet s.lists name (removeFirstEq v l)
                  else s.lists }
  else .err (.py "AttributeError") s

/-- `Interpreter.list_length` (src/interpreter.py lines 254-256), with
the regex `List (\w+) length\(\);`. -/
def lengthStmt (s : St) (line : String) : Res :=
  if pyStarts line "List " then
    let rest := pyDrop line 5
    let name := String.mk (rest.data.takeWhile wordChar)
    if name = "" then .err (.py "AttributeError") s
    else if pyStarts (pyDrop rest name.length) " length();" then
      match dictLookup s.lists name with
      | none => .err (.py "KeyError") s
      | some l => .ok { s with output := s.output ++ [toString l.length] }
    else .err (.py "AttributeError") s
  else .err (.py "AttributeError") s

/-- `Interpreter.filter_list` (src/interpreter.py lines 258-260). -/
def filterStmt (fuel : Nat) (s : St) (line : String) : Res :=
  if pyStarts line "filter(\"" then
    match matchTwo (pyDrop line 8) with
    | none => .err (.py "AttributeError") s
    | some (name, cond) =>
      match dictLookup s.lists name with
      | none => .err (.py "KeyError") s
      | some l =>
        match filterEval fuel s.vars cond l with
        | .error e => .err e s
        | .ok l2 => .ok { s with lists := dictSet s.lists name l2 }
  else .err (.py "AttributeError") s

/-! ## Control flow -/

/-- `Interpreter.skip_block` (src/interpreter.py lines 217-224): advance
the counter, bumping the depth on every line ending in `:` and dropping
it on every `End;`, until the depth returns to zero; running past the end
of the line sequence is a native IndexError.  The fuel (chosen one past
the number of remaining lines by `skipBlock`) cannot run out before one
of the two outcomes. -/
def skipBlockAux : Nat → List String → Nat → Nat → Except Nat Nat
  | 0, _, pc, _ => .error pc
  | fuel + 1, lines, pc, depth =>
    if depth = 0 then .ok pc
    else
      match lines[pc + 1]? with
      | none => .error (pc + 1)
      | some l =>
        let d1 := if pyEnds l ":" then depth + 1 else depth
        let d2 := if l = "End;" then d1 - 1 else d1
        skipBlockAux fuel lines (pc + 1) d2

/-- Block skip from the current counter position. -/
def skipBlock (s : St) : Res :=
  match skipBlockAux (s.lines.length + 2) s.lines s.pc 1 with
  | .ok pc => .ok { s with pc := pc }
  | .error pc => .err (.py "IndexError") { s with pc := pc }

/-- The four recursion sites of the executor: a single statement
(`Interpreter.exec_line`), the body loop shared by `if_block` and
`while_block`, the `while` iteration loop, the procedure-call line loop,
and the top-level `run` loop. -/
inductive Req where
  | line (line : String)
  | body
  | wloop (cond : String) (start : Nat)
  | callSeq (body : List String)
  | runl

/-- The interpreter's executor (src/interpreter.py lines 45-112 and
193-215), as one fuel-indexed structural recursion.

`.line l` is `exec_line(l)`: the dispatch tests literal prefixes in the
exact source order (procedure definition header, definition-body
collection, `call`, `def`, `console.type`, `if`, `else:`, `while`,
`create list`, `append`, `remove`, `List `/` length()`, `filter`,
`break;`, `skip;`, `return`, unknown-statement error).

`.body` is the inner `while self.lines[self.pc] != "End;"` loop of
`if_block`/`while_block`; `.wloop cond start` is the condition-testing
loop of `while_block`; `.callSeq body` is the `for proc_line in
self.procedures[name]` loop of the `call` branch — note it threads the
one global state, including the caller's `pc`, through `exec_line`;
`.runl` is the `while self.pc < len(self.lines)` loop of `run`. -/
def exec : Nat → St → Req → Res
  | 0, s, _ => .err .fuel s
  | fuel + 1, s, req =>
    match req with
    | .line line =>
      if pyStarts line "def procedure" then
        if !(pyEnds line ":") then
          .err (.lang "Procedure definition must end with :") s
        else
          match (pySplitWs line)[2]? with
          | none => .err (.py "IndexError") s
          | some w =>
            .ok { s with definingProc := true,
                         currentProc := some (pyReplace w ":" ""),
                         procBuffer := [] }
      else if s.definingProc then
        if line = "End;" then
          match s.currentProc with
          | some nm =>
            .ok { s with procedures := dictSet s.procedures nm s.procBuffer,
                         definingProc := false, currentProc := none,
                         procBuffer := [] }
          | none => .err (.py "unreachable") s
        else .ok { s with procBuffer := s.procBuffer ++ [line] }
      else if pyStarts line "call " then
        match (pySplitWs line)[1]? with
        | none => .err (.py "IndexError") s
        | some w =>
          let nm := pyReplace w ";" ""
          match dictLookup s.procedures nm with
          | none => .err (.lang ("Procedure " ++ nm ++ " not defined")) s
          | some body => exec fuel s (.callSeq body)
      else if pyStarts line "def " then defVarStmt fuel s line
      else if pyStarts line "console.type" then consoleStmt fuel s line
      else if pyStarts line "if " then
        match evalCond fuel s.vars (pyStrip (pyDropEnd (pyDrop line 3) 1)) none with
        | .error e => .err e s
        | .ok r =>
          let s1 := { s with pc := s.pc + 1 }
          if r then exec fuel s1 .body else skipBlock s1
      else if pyStarts line "else:" then skipBlock s
      else if pyStarts line "while " then
        let cond := pyStrip (pyDropEnd (pyDrop line 6) 1)
        let start := s.pc
        match exec fuel { s with loopStack := s.loopStack ++ [start],
                                 pc := s.pc + 1 } (.wloop cond start) with
        | .ok s2 => skipBlock { s2 with loopStack := s2.loopStack.dropLast }
        | r => r
      else if pyStarts line "create list" then createStmt s line
      else if pyStarts line "append" then appendStmt fuel s line
      else if pyStarts line "remove" then removeStmt fuel s line
      else if pyStarts line "List " && pyIn " length()" line then lengthStmt s line
      else if pyStarts line "filter" then filterStmt fuel s line
      else if line = "break;" then skipBlock s
      else if line = "skip;" then skipBlock s
      else if pyStarts line "return" then .ok s
      else .err (.lang ("Unknown statement: " ++ line)) s
    | .body =>
      match s.lines[s.pc]? with
      | none => .err (.py "IndexError") s
      | some l =>
        if l = "End;" then .ok s
        else
          match exec fuel s (.line l) with
          | .ok s1 => exec fuel { s1 with pc := s1.pc + 1 } .body
          | r => r
    | .wloop cond start =>
      match evalCond fuel s.vars cond none with
      | .error e => .err e s
      | .ok false => .ok s
      | .ok true =>
        match exec fuel { s with pc := start + 1 } .body with
        | .ok s1 => exec fuel s1 (.wloop cond start)
        | r => r
    | .callSeq [] => .ok s
    | .callSeq (l :: rest) =>
      match exec fuel s (.line l) with
      | .ok s1 => exec fuel s1 (.callSeq rest)
      | r => r
    | .runl =>
      match s.lines[s.pc]? with
      | none => .ok s
      | some l =>
        if l = "End;" && !s.definingProc then .ok s
        else
          match exec fuel s (.line l) with
          | .ok s1 => exec fuel { s1 with pc := s1.pc + 1 } .runl
          | r => r

/-- `Interpreter.exec_line`. -/
def execLine (fuel : Nat) (s : St) (line : String) : Res := exec fuel s (.line line)

/-- Fresh interpreter state for a source text and inputs mapping
(`Interpreter.__init__`). -/
def initSt (raw : List String) (inputs : List (String × String)) : St :=
  { lines := preprocess raw, vars := [], consts := [], lists := [],
    procedures := [], definingProc := false, currentProc := none,
    procBuffer := [], pc := 0, loopStack := [], inputs := inputs,
    output := [] }

/-- `Interpreter.run` (src/interpreter.py lines 45-54): the entry-header
check on the first preprocessed line (a native IndexError on an empty
program), then the main loop from line 1. -/
def interpRun (fuel : Nat) (raw : List String) (inputs : List (String × String)) :
    Res :=
  let s := initSt raw inputs
  match s.lines.head? with
  | none => .err (.py "IndexError") s
  | some first =>
    if pyStarts first "When container main" then exec fuel { s with pc := 1 } .runl
    else .err (.lang "Program must start with When container main(int):") s

deriving instance DecidableEq for Except

/-! ## Helper lemmas -/

theorem listPre_append_iff (a : List Char) :
    ∀ b, listPre a b = true ↔ ∃ t, b = a ++ t := by
  induction a with
  | nil => intro b; simp [listPre]
  | cons c cs ih =>
    intro b
    cases b with
    | nil => simp [listPre]
    | cons d ds =>
      simp only [listPre, Bool.and_eq_true, beq_iff_eq, ih, List.cons_append]
      constructor
      · rintro ⟨rfl, t, rfl⟩; exact ⟨t, rfl⟩
      · rintro ⟨t, h⟩
        injection h with h1 h2
        exact ⟨h1.symm, t, h2⟩

theorem listPre_cons_false {a b : Char} (as bs : List Char)
    (h : (a == b) = false) : listPre (a :: as) (b :: bs) = false := by
  simp [listPre, h]

theorem skipBlock_fields (s : St) :
    (skipBlock s).state.vars = s.vars ∧ (skipBlock s).state.consts = s.consts ∧
    (skipBlock s).state.lists = s.lists ∧
    (skipBlock s).state.procedures = s.procedures ∧
    (skipBlock s).state.output = s.output := by
  unfold skipBlock
  cases skipBlockAux (s.lines.length + 2) s.lines s.pc 1 <;> simp [Res.state]

theorem condOp_skip (fuel : Nat) (vars : List (String × Value)) (cond op : String)
    (h : (pySplit cond op).length = 1) : condOp fuel vars cond op = none := by
  simp [condOp, h]

/-! ## Demonstration programs and states -/

/-- The C8 example program from the spec. -/
def c8Prog : List String :=
  ["When container main(int):", "create list(\"a\");", "append(\"a\", 1);",
   "append(\"a\", 2);", "filter(\"a\", $$ > 1);", "End;"]

/-- A program whose procedure body consists of a single `if` line; after
`call p;` the `if` is false, so its block skip scans the caller's lines. -/
def c1Prog : List String :=
  ["When container main(int):", "def procedure p:", "if 1 < 0:", "End;",
   "call p;", "console.type(\"A\");", "End;"]

/-- The interpreter state of the `c1Prog` run just before the `call p;`
line at index 4 executes. -/
def c1CallerState : St :=
  { lines := preprocess c1Prog, vars := [], consts := [], lists := [],
    procedures := [("p", ["if 1 < 0:"])], definingProc := false,
    currentProc := none, procBuffer := [], pc := 4, loopStack := [],
    inputs := [], output := [] }

/-- A fresh state over a minimal program, used by several witnesses. -/
def demoSt : St := initSt ["When container main(int):"] []

/-- A state positioned on an `else:` header. -/
def elseSt : St :=
  { lines := ["else:", "x", "End;"], vars := [("v", .int 1)], consts := [],
    lists := [], procedures := [], definingProc := false, currentProc := none,
    procBuffer := [], pc := 0, loopStack := [], inputs := [],
    output := ["earlier"] }

/-! ## Claims -/

/-- Claim C7: executing `break;` is equivalent to executing `skip;` in
every interpreter state (outside definition-collection mode, where
neither line is executed as a statement): both dispatch to the identical
block skip of the immediately enclosing block. -/
theorem c7_break_skip_equivalent (fuel : Nat) (s : St)
    (hd : s.definingProc = false) :
    execLine fuel s "break;" = execLine fuel s "skip;" := by
  cases fuel with
  | zero => rfl
  | succ n =>
    obtain ⟨lines, vars, consts, lists, procs, defining, curr, buf, pc, loop,
      inputs, output⟩ := s
    simp only at hd
    subst hd
    rfl

/-- Claim C7 witness: the equivalence at a concrete state. -/
theorem c7_witness : execLine 5 demoSt "break;" = execLine 5 demoSt "skip;" :=
  c7_break_skip_equivalent 5 demoSt rfl

/-- Claim C4 counterexample: referencing an undefined list in `append`
is raised as a native `KeyError` (`self.lists[name]` on a missing key,
src/interpreter.py line 246), not as the single language error kind. -/
theorem c4_counterexample_keyerror :
    execLine 10 demoSt "append(\"a\", 1);" = .err (.py "KeyError") demoSt ∧
    Err.isLang (.py "KeyError") = false :=
  ⟨by decide, rfl⟩

/-- Claim C4 (amended): faults from an undefined variable (falling
through every expression rule), an undefined procedure, an unknown
statement shape, malformed literal syntax and a missing entry header are
raised as the single language error kind the moment classification,
parsing or evaluation fails; but a reference to an undefined list is a
native `KeyError`, outside the language error kind. -/
theorem c4_error_kinds :
    evalExpr 10 [] "bogus" = .error (.lang "Invalid expression: bogus") ∧
    execLine 10 demoSt "call nope;" =
      .err (.lang "Procedure nope not defined") demoSt ∧
    execLine 10 demoSt "frobnicate;" =
      .err (.lang "Unknown statement: frobnicate;") demoSt ∧
    execLine 10 demoSt "def var = 1;" =
      .err (.lang "Invalid variable definition") demoSt ∧
    interpRun 10 ["nope;"] [] =
      .err (.lang "Program must start with When container main(int):")
        (initSt ["nope;"] []) ∧
    execLine 10 demoSt "append(\"a\", 1);" = .err (.py "KeyError") demoSt ∧
    Err.isLang (.py "KeyError") = false := by
  refine ⟨by decide, by decide, by decide, by decide, by decide, by decide, rfl⟩

/-- Claim C3 counterexample: a program whose first preprocessed line is
`When container main(string):` — not exactly the declared entry header —
still runs without the entry-header error, because the check is only a
`startswith` test (src/interpreter.py line 46). -/
theorem c3_counterexample_inexact_header :
    (preprocess ["When container main(string):", "End;"]).head? =
      some "When container main(string):" ∧
    "When container main(string):" ≠ "When container main(int):" ∧
    (interpRun 10 ["When container main(string):", "End;"] []).isOk = true :=
  ⟨by decide, by decide, by decide⟩

/-- Claim C3 (amended): for every program whose first preprocessed line
does not start with `When container main`, the run fails with the
entry-header error before any statement executes: the error state is the
untouched initial state, with empty output and stores. -/
theorem c3_entry_guard (fuel : Nat) (raw : List String)
    (inputs : List (String × String)) (f : String)
    (h1 : (preprocess raw).head? = some f)
    (h2 : pyStarts f "When container main" = false) :
    interpRun fuel raw inputs =
      .err (.lang "Program must start with When container main(int):")
        (initSt raw inputs) ∧
    (initSt raw inputs).output = [] ∧ (initSt raw inputs).vars = [] ∧
    (initSt raw inputs).lists = [] ∧ (initSt raw inputs).procedures = [] := by
  refine ⟨?_, rfl, rfl, rfl, rfl⟩
  have h1' : (initSt raw inputs).lines.head? = some f := h1
  unfold interpRun
  dsimp only
  rw [h1']
  dsimp only
  rw [h2]
  simp

/-- Claim C3 witness: the guard at a concrete program. -/
theorem c3_witness :
    interpRun 7 ["nope;"] [] =
      .err (.lang "Program must start with When container main(int):")
        (initSt ["nope;"] []) ∧
    (initSt ["nope;"] []).output = [] ∧ (initSt ["nope;"] []).vars = [] ∧
    (initSt ["nope;"] []).lists = [] ∧ (initSt ["nope;"] []).procedures = [] :=
  c3_entry_guard 7 ["nope;"] [] "nope;" (by decide) (by decide)

/-- Claim C1 counterexample: during `call p;` the control-flow line
`if 1 < 0:` stored in the procedure body reads and moves the caller's
top-level program counter (from 4 to 6, past the caller's
`console.type("A");` line), so at run level the caller's output line is
never printed. -/
theorem c1_counterexample_pc_moved :
    c1CallerState.pc = 4 ∧
    execLine 40 c1CallerState "call p;" = .ok { c1CallerState with pc := 6 } ∧
    (interpRun 40 c1Prog []).isOk = true ∧
    (interpRun 40 c1Prog []).state.output = [] :=
  ⟨rfl, by decide, by decide, by decide⟩

/-- Claim C1 (amended): a `call` executes each stored body line through
the same statement dispatcher against the caller's single global state —
sharing the Variable/List Stores, but also the caller's top-level line
sequence and program counter, which a control-flow line inside the body
reads and moves (it does not get a local line sequence or position). -/
theorem c1_call_dispatch (fuel : Nat) (s : St) (hd : s.definingProc = false) :
    (execLine (fuel + 1) s "call p;" =
      match dictLookup s.procedures "p" with
      | none => Res.err (.lang "Procedure p not defined") s
      | some body => exec fuel s (.callSeq body)) ∧
    (∀ (g : Nat) (t : St) (l : String) (rest : List String),
      exec (g + 1) t (.callSeq (l :: rest)) =
        match exec g t (.line l) with
        | .ok t1 => exec g t1 (.callSeq rest)
        | r => r) ∧
    execLine 40 c1CallerState "call p;" = .ok { c1CallerState with pc := 6 } := by
  obtain ⟨lines, vars, consts, lists, procs, defining, curr, buf, pc, loop,
    inputs, output⟩ := s
  simp only at hd
  subst hd
  exact ⟨rfl, fun g t l rest => rfl, by decide⟩

/-- Claim C1 witness: the dispatch equation at a concrete caller state. -/
theorem c1_witness :
    execLine 40 c1CallerState "call p;" =
      match dictLookup c1CallerState.procedures "p" with
      | none => Res.err (.lang "Procedure p not defined") c1CallerState
      | some body => exec 39 c1CallerState (.callSeq body) :=
  (c1_call_dispatch 39 c1CallerState rfl).1

/-- Claim C10: a `def var|const x = input from "p";` statement whose
prompt is absent from the supplied inputs mapping succeeds without error
and binds `x` to the empty string (src/interpreter.py line 128,
`self.inputs.get(prompt, "")`). -/
theorem c10_missing_input_binds_empty (fuel : Nat) (s : St)
    (hd : s.definingProc = false) (hp : dictLookup s.inputs "p" = none) :
    execLine (fuel + 1) s "def var x = input from \"p\";" =
      .ok { s with vars := dictSet s.vars "x" (.str "") } ∧
    execLine (fuel + 1) s "def const x = input from \"p\";" =
      .ok { s with vars := dictSet s.vars "x" (.str ""),
                   consts := setAdd s.consts "x" } := by
  obtain ⟨lines, vars, consts, lists, procs, defining, curr, buf, pc, loop,
    inputs, output⟩ := s
  simp only at hd hp
  subst hd
  constructor
  · have key : execLine (fuel + 1)
        ⟨lines, vars, consts, lists, procs, false, curr, buf, pc, loop,
          inputs, output⟩ "def var x = input from \"p\";" =
        .ok (bindVar
          ⟨lines, vars, consts, lists, procs, false, curr, buf, pc, loop,
            inputs, output⟩ "var" "x"
          (.str ((dictLookup inputs "p").getD ""))) := rfl
    rw [hp] at key
    exact key
  · have key : execLine (fuel + 1)
        ⟨lines, vars, consts, lists, procs, false, curr, buf, pc, loop,
          inputs, output⟩ "def const x = input from \"p\";" =
        .ok (bindVar
          ⟨lines, vars, consts, lists, procs, false, curr, buf, pc, loop,
            inputs, output⟩ "const" "x"
          (.str ((dictLookup inputs "p").getD ""))) := rfl
    rw [hp] at key
    exact key

/-- Claim C10 witness: the binding at a concrete state. -/
theorem c10_witness :
    execLine 6 demoSt "def var x = input from \"p\";" =
      .ok { demoSt with vars := dictSet demoSt.vars "x" (.str "") } ∧
    execLine 6 demoSt "def const x = input from \"p\";" =
      .ok { demoSt with vars := dictSet demoSt.vars "x" (.str ""),
                        consts := setAdd demoSt.consts "x" } :=
  c10_missing_input_binds_empty 5 demoSt rfl (by decide)

/-- Claim C2: a `+` anywhere makes evaluation split the whole fragment on
every `+` and concatenate the string forms of the recursively evaluated
parts (never numeric addition); the remaining operators are probed in the
fixed order `**`, `*`, `/`, `-`, splitting at the first occurrence with
the remainder evaluated recursively as the right operand, so `2 + 3`
gives the string `23`, `2 - 3 - 1` gives `0` = `2 - (3 - 1)`, and the
probe order makes `2-3*2` give `(2-3)*2 = -2`. -/
theorem c2_plus_concat_and_op_order :
    (∀ (fuel : Nat) (vars : List (String × Value)) (expr : String),
        pyIn "+" (pyStrip expr) = true →
        evalExpr (fuel + 1) vars expr =
          match (pySplit (pyStrip expr) "+").mapM
              (fun p => evalExpr fuel vars (pyStrip p)) with
          | .error e => .error e
          | .ok vs => .ok (.str (String.join (vs.map pyStr)))) ∧
    evalExpr 9 [] "2 + 3" = .ok (.str "23") ∧
    evalExpr 9 [] "2 - 3 - 1" = .ok (.int 0) ∧
    evalExpr 9 [] "2-3*2" = .ok (.int (-2)) := by
  refine ⟨?_, by decide, by decide, by decide⟩
  intro fuel vars expr h
  conv_lhs => rw [evalExpr]
  rw [h]
  simp

/-- Claim C2 witness: the concatenation rule at a concrete fragment. -/
theorem c2_witness :
    evalExpr 5 [] "1 + 2" =
      match (pySplit (pyStrip "1 + 2") "+").mapM
          (fun p => evalExpr 4 [] (pyStrip p)) with
      | .error e => .error e
      | .ok vs => .ok (.str (String.join (vs.map pyStr))) :=
  c2_plus_concat_and_op_order.1 4 [] "1 + 2" (by decide)

/-- Claim C5 counterexample: when the selected comparison operator occurs
more than once, `cond.split(op)` (no maxsplit, src/interpreter.py line
178) yields more than two pieces and the two-name unpacking raises a
native ValueError instead of applying the comparator to two sides. -/
theorem c5_counterexample_double_operator :
    evalCond 9 [] "1 < 2 < 3" none = .error (.py "ValueError") ∧
    Err.isLang (.py "ValueError") = false :=
  ⟨by decide, rfl⟩

/-- Claim C5 (amended): condition evaluation probes `==`, `!=`, `>=`,
`<=`, `>`, `<` in that fixed order; for the first operator present, if it
occurs exactly once the text splits into two sides which are evaluated as
expressions and compared, but if it occurs more than once the unpacking
fails with a native ValueError. -/
theorem c5_cond_priority_split :
    (∀ (fuel : Nat) (vars : List (String × Value)) (cond : String),
        (pySplit cond "==").length = 1 → (pySplit cond "!=").length = 1 →
        (pySplit cond ">=").length = 1 → (pySplit cond "<=").length = 1 →
        (pySplit cond ">").length = 1 → (pySplit cond "<").length = 2 →
        evalCond (fuel + 1) vars cond none =
          match evalExpr fuel vars (pyStrip ((pySplit cond "<").headD "")) with
          | .error e => .error e
          | .ok a =>
            match evalExpr fuel vars (pyStrip ((pySplit cond "<").getD 1 "")) with
            | .error e => .error e
            | .ok b => cmpDict "<" a b) ∧
    evalCond 9 [] "2 >= 1" none = .ok true ∧
    evalCond 9 [] "1 <= 2" none = .ok true ∧
    evalCond 9 [] "1 < 2 < 3" none = .error (.py "ValueError") := by
  refine ⟨?_, by decide, by decide, by decide⟩
  intro fuel vars cond h1 h2 h3 h4 h5 h6
  conv_lhs => rw [evalCond]
  rw [condOp_skip fuel vars cond "==" h1, condOp_skip fuel vars cond "!=" h2,
      condOp_skip fuel vars cond ">=" h3, condOp_skip fuel vars cond "<=" h4,
      condOp_skip fuel vars cond ">" h5]
  unfold condOp
  dsimp only
  rw [h6]
  simp

/-- Claim C5 witness: the single-occurrence comparator path at a concrete
condition. -/
theorem c5_witness :
    evalCond 6 [] "1 < 2" none =
      match evalExpr 5 [] (pyStrip ((pySplit "1 < 2" "<").headD "")) with
      | .error e => .error e
      | .ok a =>
        match evalExpr 5 [] (pyStrip ((pySplit "1 < 2" "<").getD 1 "")) with
        | .error e => .error e
        | .ok b => cmpDict "<" a b :=
  c5_cond_priority_split.1 5 [] "1 < 2" (by decide) (by decide) (by decide)
    (by decide) (by decide) (by decide)

/-- Claim C6: a line starting with `else:` is dispatched straight to the
block skip (src/interpreter.py lines 91-92), so the body lines of an
`else:` block are never executed, whatever the preceding `if` condition
was: the variable, constant, list and procedure stores and the console
output are all left untouched, only the program counter moves past the
block. -/
theorem c6_else_unconditionally_skipped (fuel : Nat) (s : St) (line : String)
    (hd : s.definingProc = false) (h : pyStarts line "else:" = true) :
    execLine (fuel + 1) s line = skipBlock s ∧
    (execLine (fuel + 1) s line).state.vars = s.vars ∧
    (execLine (fuel + 1) s line).state.consts = s.consts ∧
    (execLine (fuel + 1) s line).state.lists = s.lists ∧
    (execLine (fuel + 1) s line).state.procedures = s.procedures ∧
    (execLine (fuel + 1) s line).state.output = s.output := by
  obtain ⟨t, ht⟩ := (listPre_append_iff "else:".data line.data).mp h
  have hcons : line.data = 'e' :: 'l' :: 's' :: 'e' :: ':' :: t := ht
  have c1 : pyStarts line "def procedure" = false := by
    unfold pyStarts; rw [hcons]; exact listPre_cons_false _ _ (by decide)
  have c2 : pyStarts line "call " = false := by
    unfold pyStarts; rw [hcons]; exact listPre_cons_false _ _ (by decide)
  have c3 : pyStarts line "def " = false := by
    unfold pyStarts; rw [hcons]; exact listPre_cons_false _ _ (by decide)
  have c4 : pyStarts line "console.type" = false := by
    unfold pyStarts; rw [hcons]; exact listPre_cons_false _ _ (by decide)
  have c5 : pyStarts line "if " = false := by
    unfold pyStarts; rw [hcons]; exact listPre_cons_false _ _ (by decide)
  have hmain : execLine (fuel + 1) s line = skipBlock s := by
    show exec (fuel + 1) s (.line line) = skipBlock s
    conv_lhs => rw [exec]
    rw [c1, hd, c2, c3, c4, c5, h]
    simp
  have hf := skipBlock_fields s
  exact ⟨hmain, by rw [hmain]; exact hf.1, by rw [hmain]; exact hf.2.1,
    by rw [hmain]; exact hf.2.2.1, by rw [hmain]; exact hf.2.2.2.1,
    by rw [hmain]; exact hf.2.2.2.2⟩

/-- Claim C6 witness: the skip at a concrete state and `else:` line. -/
theorem c6_witness :
    execLine 3 elseSt "else:" = skipBlock elseSt ∧
    (execLine 3 elseSt "else:").state.vars = elseSt.vars ∧
    (execLine 3 elseSt "else:").state.consts = elseSt.consts ∧
    (execLine 3 elseSt "else:").state.lists = elseSt.lists ∧
    (execLine 3 elseSt "else:").state.procedures = elseSt.procedures ∧
    (execLine 3 elseSt "else:").state.output = elseSt.output :=
  c6_else_unconditionally_skipped 2 elseSt "else:" rfl (by decide)

/-- Claim C8: `filter` rebuilds an existing list keeping exactly the
elements on which the condition (with the `$$` placeholder bound to the
element) is true, preserving their relative order; in particular the
spec's `create/append/append/filter` program leaves list `a` holding
exactly `[2]`. -/
theorem c8_filter_keeps_true_elements :
    (∀ (fuel : Nat) (vars : List (String × Value)) (cond : String)
        (p : Value → Bool) (l : List Value),
        (∀ x ∈ l, evalCond fuel vars cond (some x) = .ok (p x)) →
        filterEval fuel vars cond l = .ok (l.filter p)) ∧
    (interpRun 30 c8Prog []).isOk = true ∧
    (interpRun 30 c8Prog []).state.lists = [("a", [Value.int 2])] := by
  refine ⟨?_, by decide, by decide⟩
  intro fuel vars cond p l
  induction l with
  | nil => intro _; rfl
  | cons x xs ih =>
    intro hall
    have hx := hall x (List.mem_cons_self x xs)
    have hxs := ih (fun y hy => hall y (List.mem_cons_of_mem x hy))
    simp only [filterEval, hx, hxs, List.filter_cons]

/-- Claim C8 witness: the filter evaluation at the concrete list and
condition of the spec example. -/
theorem c8_witness :
    filterEval 5 [] "$$ > 1" [Value.int 1, Value.int 2] =
      .ok [Value.int 2] := by
  have h := c8_filter_keeps_true_elements.1 5 [] "$$ > 1"
      (fun x => match x with | .int n => decide (1 < n) | _ => false)
      [Value.int 1, Value.int 2]
      (by intro x hx; simp at hx; rcases hx with rfl | rfl <;> decide)
  rw [h]
  decide

/-- Worker for the C9 round trip: from any comment-flag state, the
preprocessor output is exactly the manually surviving lines, trimmed. -/
theorem preprocessAux_map (raw : List String) : ∀ ic : Bool,
    preprocessAux ic raw = (specManualDeleteAux ic raw).map pyStrip := by
  induction raw with
  | nil => intro ic; rfl
  | cons r rest ih =>
    intro ic
    by_cases h1 : pyStrip r = ""
    · simpa [preprocessAux, specManualDeleteAux, h1] using ih ic
    · by_cases h2 : pyStarts (pyStrip r) "//" = true
      · simpa [preprocessAux, specManualDeleteAux, h1, h2] using ih true
      · by_cases h3 : pyStarts (pyStrip r) "\\\\" = true
        · simpa [preprocessAux, specManualDeleteAux, h1, h2, h3] using ih false
        · by_cases h4 : (ic || pyStarts (pyStrip r) "#") = true
          · simpa [preprocessAux, specManualDeleteAux, h1, h2, h3, h4] using ih ic
          · simpa [preprocessAux, specManualDeleteAux, h1, h2, h3, h4] using ih ic

/-- Worker for the C9 round trip: manual deletion is stable — its
surviving lines contain no blank line or comment region, so deleting
again from the clean (flag-off) state keeps every line. -/
theorem specManualDeleteAux_stable (raw : List String) : ∀ ic : Bool,
    specManualDeleteAux false (specManualDeleteAux ic raw) =
      specManualDeleteAux ic raw := by
  induction raw with
  | nil => intro ic; rfl
  | cons r rest ih =>
    intro ic
    by_cases h1 : pyStrip r = ""
    · simpa [specManualDeleteAux, h1] using ih ic
    · by_cases h2 : pyStarts (pyStrip r) "//" = true
      · simpa [specManualDeleteAux, h1, h2] using ih true
      · by_cases h3 : pyStarts (pyStrip r) "\\\\" = true
        · simpa [specManualDeleteAux, h1, h2, h3] using ih false
        · by_cases h4 : (ic || pyStarts (pyStrip r) "#") = true
          · cases ic with
            | true => simpa [specManualDeleteAux, h1, h2, h3] using ih true
            | false =>
              have hp : pyStarts (pyStrip r) "#" = true := by simpa using h4
              simpa [specManualDeleteAux, h1, h2, h3, hp] using ih false
          · have hic : ic = false := by
              revert h4; cases ic <;> simp
            have hp : pyStarts (pyStrip r) "#" = false := by
              revert h4; rw [hic]; cases pyStarts (pyStrip r) "#" <;> simp
            subst hic
            simpa [specManualDeleteAux, h1, h2, h3, hp] using ih false

/-- Claim C9: preprocessing a program yields the same line sequence as
preprocessing the program with its comment and blank regions manually
deleted (the `#` lines, blank lines, the lines of a `//`...`\\` block and
the close marker itself), and that sequence is exactly the surviving
lines, trimmed, in their original order. -/
theorem c9_preprocess_round_trip : ∀ raw : List String,
    preprocess raw = preprocess (specManualDelete raw) ∧
    preprocess raw = (specManualDelete raw).map pyStrip := by
  intro raw
  constructor
  · show preprocessAux false raw =
      preprocessAux false (specManualDeleteAux false raw)
    rw [preprocessAux_map raw false,
        preprocessAux_map (specManualDeleteAux false raw) false,
        specManualDeleteAux_stable raw false]
  · exact preprocessAux_map raw false
